import Mathlib

/-!
Verification of the FlexASIO diagnostic/test scaffolding against its
natural-language specification.

The development shallowly embeds the three source files of the excerpt:
  - FlexASIOTest/test.cpp        (the manual exerciser)
  - FlexASIOUtil/string.h        (Join / EnumToString helpers)
  - src/FlexASIOUtil/portaudio.cpp (PortAudio glue: logger, stream open and
    close wrappers, parameter description)
Machine integers (C++ long, size_t) are modeled as Int or Nat with explicit
wrap-around where overflow matters.  ASIO sample rates are C doubles, but the
exerciser only ever uses integral rates and only compares them for equality,
so they are modeled as Int.  Stateful external calls (the ASIO driver, the
PortAudio backend) are modeled as an explicit state machine supplied by the
theorem statements, so every theorem quantifies over all possible backend
behaviours.
-/

set_option maxRecDepth 100000

namespace FlexASIO

/-! ## ASIO error codes (constants from the ASIO SDK's asio.h) -/

def ASE_OK : Int := 0
def ASE_SUCCESS : Int := 0x3f4847a0
def ASE_NotPresent : Int := -1000
def ASE_HWMalfunction : Int := -999
def ASE_InvalidParameter : Int := -998
def ASE_InvalidMode : Int := -997
def ASE_SPNotAdvancing : Int := -996
def ASE_NoClock : Int := -995
def ASE_NoMemory : Int := -994

/-- Embedding of `GetASIOErrorString` (FlexASIOTest/test.cpp, lines 16-29):
a `switch` over the ASIOError value returning a fixed name per known code and
a fallback string for everything else. -/
def GetASIOErrorString (error : Int) : String :=
  if error = ASE_OK then "ASE_OK"
  else if error = ASE_SUCCESS then "ASE_SUCCESS"
  else if error = ASE_NotPresent then "ASE_NotPresent"
  else if error = ASE_HWMalfunction then "ASE_HWMalfunction"
  else if error = ASE_InvalidParameter then "ASE_InvalidParameter"
  else if error = ASE_InvalidMode then "ASE_InvalidMode"
  else if error = ASE_SPNotAdvancing then "ASE_SPNotAdvancing"
  else if error = ASE_NoClock then "ASE_NoClock"
  else if error = ASE_NoMemory then "ASE_NoMemory"
  else "(unknown ASE error code)"

/-- The fixed error vocabulary recognised by `GetASIOErrorString`. -/
def knownASIOErrorCodes : List Int :=
  [ASE_OK, ASE_SUCCESS, ASE_NotPresent, ASE_HWMalfunction, ASE_InvalidParameter,
   ASE_InvalidMode, ASE_SPNotAdvancing, ASE_NoClock, ASE_NoMemory]

/-! ## Join (FlexASIOUtil/string.h, lines 16-29)

`JoinStream` writes to an output stream: the items of the collection in
order, with the delimiter written between consecutive items.  The stream is
modeled as the list of tokens written to it, distinguishing item writes from
delimiter writes, so that positional properties (how often and where the
delimiter is written) are exact even when an item's text equals the
delimiter's text. -/

inductive JoinToken where
  | item (s : String)
  | delim
deriving DecidableEq

/-- The loop of `JoinStream`: write the current item; stop if the iterator is
exhausted, otherwise write the delimiter and continue. -/
def JoinStreamLoop : String → List String → List JoinToken
  | x, [] => [JoinToken.item x]
  | x, y :: rest => JoinToken.item x :: JoinToken.delim :: JoinStreamLoop y rest

/-- Embedding of `JoinStream`: returns immediately on an empty collection,
otherwise runs the write loop. -/
def JoinStream : List String → List JoinToken
  | [] => []
  | x :: rest => JoinStreamLoop x rest

def renderJoinToken (delimiter : String) : JoinToken → String
  | JoinToken.item s => s
  | JoinToken.delim => delimiter

/-- Embedding of `Join`: the string accumulated in the stringstream, i.e. the
concatenation of everything `JoinStream` wrote. -/
def Join (items : List String) (delimiter : String) : String :=
  String.join ((JoinStream items).map (renderJoinToken delimiter))

lemma joinStreamLoop_eq_intersperse (x : String) (rest : List String) :
    JoinStreamLoop x rest =
      List.intersperse JoinToken.delim ((x :: rest).map JoinToken.item) := by
  induction rest generalizing x with
  | nil => rfl
  | cons y ys ih =>
      simp only [JoinStreamLoop, List.map_cons, List.intersperse]
      rw [ih y]
      simp [List.intersperse]

lemma joinStream_eq_intersperse (items : List String) :
    JoinStream items = List.intersperse JoinToken.delim (items.map JoinToken.item) := by
  cases items with
  | nil => rfl
  | cons x rest => simpa [JoinStream] using joinStreamLoop_eq_intersperse x rest

lemma joinStreamLoop_count_delim (x : String) (rest : List String) :
    (JoinStreamLoop x rest).count JoinToken.delim = rest.length := by
  induction rest generalizing x with
  | nil => rfl
  | cons y ys ih => simp [JoinStreamLoop, List.count_cons, ih y]

lemma joinStreamLoop_head (x : String) (rest : List String) :
    (JoinStreamLoop x rest).head? = some (JoinToken.item x) := by
  cases rest <;> rfl

lemma joinStreamLoop_ne_nil (x : String) (rest : List String) :
    JoinStreamLoop x rest ≠ [] := by
  cases rest <;> simp [JoinStreamLoop]

lemma joinStreamLoop_getLast (x : String) (rest : List String) :
    ∃ s, (JoinStreamLoop x rest).getLast? = some (JoinToken.item s) := by
  induction rest generalizing x with
  | nil => exact ⟨x, rfl⟩
  | cons y ys ih =>
      obtain ⟨s, hs⟩ := ih y
      refine ⟨s, ?_⟩
      simp only [JoinStreamLoop]
      cases h : JoinStreamLoop y ys with
      | nil => exact absurd h (joinStreamLoop_ne_nil y ys)
      | cons a l =>
          rw [h] at hs
          rw [List.getLast?_cons_cons, List.getLast?_cons_cons]
          exact hs

lemma map_render_intersperse (delimiter : String) (l : List String) :
    (List.intersperse JoinToken.delim (l.map JoinToken.item)).map
      (renderJoinToken delimiter) = List.intersperse delimiter l := by
  induction l with
  | nil => rfl
  | cons x rest ih =>
      cases rest with
      | nil => rfl
      | cons y ys =>
          simp only [List.map_cons, List.intersperse_cons_cons] at *
          simp_all [renderJoinToken]

/-- C10: `Join` of an empty collection is the empty string; otherwise `Join`
is the items in collection order with exactly one delimiter between each pair
of consecutive items: as a stream of writes, the delimiter is written exactly
`n - 1` times for `n` items and is never the first nor the last write, and
the result string is the interspersed concatenation. -/
theorem C10_join_delimiter_placement (items : List String) (delimiter : String) :
    Join [] delimiter = "" ∧
    Join items delimiter = String.join (List.intersperse delimiter items) ∧
    (JoinStream items).count JoinToken.delim = items.length - 1 ∧
    (JoinStream items).head? ≠ some JoinToken.delim ∧
    (JoinStream items).getLast? ≠ some JoinToken.delim := by
  refine ⟨rfl, ?_, ?_, ?_, ?_⟩
  · rw [Join, joinStream_eq_intersperse, map_render_intersperse]
  · cases items with
    | nil => rfl
    | cons x rest => simp [JoinStream, joinStreamLoop_count_delim]
  · cases items with
    | nil => simp [JoinStream]
    | cons x rest => simp [JoinStream, joinStreamLoop_head]
  · cases items with
    | nil => simp [JoinStream]
    | cons x rest =>
        obtain ⟨s, hs⟩ := joinStreamLoop_getLast x rest
        simp [JoinStream, hs]

/-- C1: `GetASIOErrorString` is total and deterministic over all ASIOError
values: each code of the fixed vocabulary maps to its own name, those names
are pairwise distinct, and every value outside the vocabulary maps to the
fallback string. -/
theorem C1_error_translation_total (e : Int) (he : e ∉ knownASIOErrorCodes) :
    GetASIOErrorString ASE_OK = "ASE_OK" ∧
    GetASIOErrorString ASE_SUCCESS = "ASE_SUCCESS" ∧
    GetASIOErrorString ASE_NotPresent = "ASE_NotPresent" ∧
    GetASIOErrorString ASE_HWMalfunction = "ASE_HWMalfunction" ∧
    GetASIOErrorString ASE_InvalidParameter = "ASE_InvalidParameter" ∧
    GetASIOErrorString ASE_InvalidMode = "ASE_InvalidMode" ∧
    GetASIOErrorString ASE_SPNotAdvancing = "ASE_SPNotAdvancing" ∧
    GetASIOErrorString ASE_NoClock = "ASE_NoClock" ∧
    GetASIOErrorString ASE_NoMemory = "ASE_NoMemory" ∧
    (knownASIOErrorCodes.map GetASIOErrorString).Nodup ∧
    GetASIOErrorString e = "(unknown ASE error code)" := by
  simp only [knownASIOErrorCodes, List.mem_cons, List.not_mem_nil, or_false, not_or] at he
  obtain ⟨h1, h2, h3, h4, h5, h6, h7, h8, h9⟩ := he
  refine ⟨by decide, by decide, by decide, by decide, by decide, by decide, by decide,
    by decide, by decide, by decide, ?_⟩
  simp only [GetASIOErrorString, if_neg h1, if_neg h2, if_neg h3, if_neg h4, if_neg h5,
    if_neg h6, if_neg h7, if_neg h8, if_neg h9]

/-- Witness for C1 at the concrete unknown code 42. -/
theorem C1_error_translation_total_witness :
    GetASIOErrorString 42 = "(unknown ASE error code)" :=
  (C1_error_translation_total 42 (by decide)).2.2.2.2.2.2.2.2.2.2

/-! ## PortAudio glue (src/FlexASIOUtil/portaudio.cpp)

PortAudio calls are external: each wrapper is modeled as a function of the
backend's behaviour on that call (the `PaError` it returns and the values it
writes through out-parameters).  Pointers are modeled as `Nat`, with `0`
encoding a null pointer.  `Except String` models C++ exception propagation:
`Except.error` is a thrown `std::runtime_error`. -/

def paNoError : Int := 0

/-- The error text supplied by the external backend (`Pa_GetErrorText`).  Its
exact content is backend-defined and irrelevant here; only that it is a
deterministic function of the error code matters. -/
def Pa_GetErrorText (error : Int) : String := "PaError " ++ toString error

/-- The `Stream` handle returned by `OpenStream`: ownership of a backend
stream pointer. -/
structure Stream where
  ptr : Nat
deriving DecidableEq

/-- Behaviour of one `Pa_OpenStream` backend call: the `PaError` it returns
and the final value of the `PaStream*` out-parameter (which the caller
initialised to null before the call). -/
structure PaOpenStreamResult where
  error : Int
  stream : Nat
deriving DecidableEq

/-- Embedding of `OpenStream` (portaudio.cpp, lines 321-335), logging elided:
initialises the stream pointer to null, performs the backend call, throws on
a backend error, throws if the backend reported success but left the pointer
null, and otherwise returns a `Stream` owning the pointer. -/
def OpenStream (backend : PaOpenStreamResult) : Except String Stream :=
  let stream : Nat := backend.stream
  if backend.error ≠ paNoError then
    Except.error ("unable to open PortAudio stream: " ++ Pa_GetErrorText backend.error)
  else if stream = 0 then
    Except.error "Pa_OpenStream() unexpectedly returned null"
  else
    Except.ok { ptr := stream }

/-- C4: `OpenStream` never partially commits a stream handle: for every
backend behaviour it either returns a `Stream` owning a non-null pointer or
throws, and it returns a handle exactly when the backend reported success
and produced a non-null pointer. -/
theorem C4_openstream_no_partial_commit (backend : PaOpenStreamResult) :
    ((∃ s : Stream, OpenStream backend = Except.ok s ∧ s.ptr ≠ 0) ∨
      (∃ msg, OpenStream backend = Except.error msg)) ∧
    ((∃ s, OpenStream backend = Except.ok s) ↔
      (backend.error = paNoError ∧ backend.stream ≠ 0)) := by
  unfold OpenStream
  by_cases he : backend.error = paNoError
  · by_cases hs : backend.stream = 0
    · simp [he, hs]
    · simp [he, hs]
  · simp [he]

/-! Calls made by the stop/close wrappers, so their theorems can state that
the backend's blocking stop/close entry point is invoked. -/

inductive PaCall where
  | stopStream (stream : Nat)
  | closeStream (stream : Nat)
deriving DecidableEq

/-- Embedding of `StreamStopper::operator()` (portaudio.cpp, lines 337-342),
declared `throw()` in the source: logs, invokes `Pa_StopStream` (whose
returned error is `backendError`), logs the failure if any, and returns
normally on every path — the result type records the log lines and the
backend calls made, and is `Except.ok` on every path since the body contains
no throw. -/
def StreamStopperCall (stream : Nat) (backendError : Int) :
    Except String (List String × List PaCall) :=
  let log1 := "Stopping PortAudio stream " ++ toString stream
  let error := backendError
  if error ≠ paNoError then
    Except.ok ([log1, "Unable to stop PortAudio stream: " ++ Pa_GetErrorText error],
      [PaCall.stopStream stream])
  else
    Except.ok ([log1], [PaCall.stopStream stream])

/-- Embedding of `StreamDeleter::operator()` (portaudio.cpp, lines 314-319),
declared `throw()` in the source; same shape as the stopper but invoking
`Pa_CloseStream`. -/
def StreamDeleterCall (stream : Nat) (backendError : Int) :
    Except String (List String × List PaCall) :=
  let log1 := "Closing PortAudio stream " ++ toString stream
  let error := backendError
  if error ≠ paNoError then
    Except.ok ([log1, "Unable to close PortAudio stream: " ++ Pa_GetErrorText error],
      [PaCall.closeStream stream])
  else
    Except.ok ([log1], [PaCall.closeStream stream])

/-- C5: stop and close are absorbing: for every backend error value both
wrappers return normally (never `Except.error`), each invokes exactly its
backend stop/close call, and when the backend reports a failure the error is
logged. -/
theorem C5_stop_close_absorb_errors (stream : Nat) (e : Int) (he : e ≠ paNoError) :
    (∀ e' : Int, ∃ out, StreamStopperCall stream e' = Except.ok out ∧
      out.2 = [PaCall.stopStream stream]) ∧
    (∀ e' : Int, ∃ out, StreamDeleterCall stream e' = Except.ok out ∧
      out.2 = [PaCall.closeStream stream]) ∧
    (∃ logs, StreamStopperCall stream e = Except.ok (logs, [PaCall.stopStream stream]) ∧
      ("Unable to stop PortAudio stream: " ++ Pa_GetErrorText e) ∈ logs) ∧
    (∃ logs, StreamDeleterCall stream e = Except.ok (logs, [PaCall.closeStream stream]) ∧
      ("Unable to close PortAudio stream: " ++ Pa_GetErrorText e) ∈ logs) := by
  refine ⟨?_, ?_, ?_, ?_⟩
  · intro e'
    unfold StreamStopperCall
    by_cases h : e' = paNoError <;> simp [h]
  · intro e'
    unfold StreamDeleterCall
    by_cases h : e' = paNoError <;> simp [h]
  · refine ⟨["Stopping PortAudio stream " ++ toString stream,
      "Unable to stop PortAudio stream: " ++ Pa_GetErrorText e], ?_, ?_⟩
    · simp [StreamStopperCall, he]
    · simp
  · refine ⟨["Closing PortAudio stream " ++ toString stream,
      "Unable to close PortAudio stream: " ++ Pa_GetErrorText e], ?_, ?_⟩
    · simp [StreamDeleterCall, he]
    · simp

/-- Witness for C5 at stream pointer 7 and backend error 3. -/
theorem C5_stop_close_absorb_errors_witness :
    ∃ logs, StreamStopperCall 7 3 = Except.ok (logs, [PaCall.stopStream 7]) ∧
      ("Unable to stop PortAudio stream: " ++ Pa_GetErrorText 3) ∈ logs :=
  (C5_stop_close_absorb_errors 7 3 (by decide)).2.2.1

/-! ## PortAudioLogger (portaudio.cpp, lines 43-67)

The shared state is the `size_t loggerReferenceCount` (modeled as a `Nat`
value below `2 ^ 64`, with explicit wrap-around on increment and decrement,
matching `size_t` arithmetic) together with whether the PortAudio debug print
function is currently installed (`PaUtil_SetDebugPrintFunction` was last
called with a non-null callback).  The mutex serialises the two bodies, so a
balanced sequence of constructions and destructions is a sequence of atomic
steps on this state. -/

structure LoggerState where
  count : Nat
  installed : Bool
deriving DecidableEq

/-- Embedding of the `PortAudioLogger` constructor body (lines 53-60): tests
the old count, post-increments, and installs the debug print function only
when the old count was zero. -/
def loggerConstruct (s : LoggerState) : LoggerState :=
  let old := s.count
  let count := (s.count + 1) % 2 ^ 64
  if old > 0 then { count := count, installed := s.installed }
  else { count := count, installed := true }

/-- Embedding of the `PortAudioLogger` destructor body (lines 62-67):
pre-decrements (with `size_t` wrap-around) and clears the debug print
function only when the new count is zero. -/
def loggerDestruct (s : LoggerState) : LoggerState :=
  let count := (s.count + (2 ^ 64 - 1)) % 2 ^ 64
  if count > 0 then { count := count, installed := s.installed }
  else { count := count, installed := false }

inductive LoggerOp where
  | construct
  | destruct
deriving DecidableEq

def loggerStep (s : LoggerState) : LoggerOp → LoggerState
  | LoggerOp.construct => loggerConstruct s
  | LoggerOp.destruct => loggerDestruct s

def loggerRun (s : LoggerState) (ops : List LoggerOp) : LoggerState :=
  ops.foldl loggerStep s

/-- A sequence of logger operations is balanced from a live count `c` when no
destruction ever outnumbers the constructions before it and the live count
never reaches `2 ^ 64` (no `size_t` overflow). -/
def loggerBalancedFrom : Nat → List LoggerOp → Bool
  | _, [] => true
  | c, LoggerOp.construct :: rest =>
      decide (c + 1 < 2 ^ 64) && loggerBalancedFrom (c + 1) rest
  | c, LoggerOp.destruct :: rest =>
      decide (0 < c) && loggerBalancedFrom (c - 1) rest

/-- The number of live logger objects after running `ops` from `c` live ones. -/
def loggerLiveCount : Nat → List LoggerOp → Nat
  | c, [] => c
  | c, LoggerOp.construct :: rest => loggerLiveCount (c + 1) rest
  | c, LoggerOp.destruct :: rest => loggerLiveCount (c - 1) rest

lemma loggerRun_inv (ops : List LoggerOp) (s : LoggerState)
    (hcount : s.count < 2 ^ 64)
    (hinst : s.installed = decide (0 < s.count))
    (hbal : loggerBalancedFrom s.count ops = true) :
    (loggerRun s ops).count = loggerLiveCount s.count ops ∧
      (loggerRun s ops).installed = decide (0 < loggerLiveCount s.count ops) := by
  induction ops generalizing s with
  | nil => exact ⟨rfl, hinst⟩
  | cons op rest ih =>
      cases op with
      | construct =>
          simp only [loggerBalancedFrom, Bool.and_eq_true, decide_eq_true_eq] at hbal
          obtain ⟨hlt, hrest⟩ := hbal
          have hstep : loggerStep s LoggerOp.construct =
              { count := s.count + 1, installed := true } := by
            unfold loggerStep loggerConstruct
            have hmod : (s.count + 1) % 2 ^ 64 = s.count + 1 := Nat.mod_eq_of_lt hlt
            simp only [hmod]
            by_cases h : s.count > 0
            · have hi : s.installed = true := by rw [hinst]; simp [h]
              simp [h, hi]
            · simp [h]
          have := ih { count := s.count + 1, installed := true }
            hlt (by simp) (by simpa using hrest)
          simpa [loggerRun, loggerLiveCount, hstep] using this
      | destruct =>
          simp only [loggerBalancedFrom, Bool.and_eq_true, decide_eq_true_eq] at hbal
          obtain ⟨hpos, hrest⟩ := hbal
          have hstep : loggerStep s LoggerOp.destruct =
              { count := s.count - 1, installed := decide (0 < s.count - 1) } := by
            unfold loggerStep loggerDestruct
            have hmod : (s.count + (2 ^ 64 - 1)) % 2 ^ 64 = s.count - 1 := by omega
            simp only [hmod]
            by_cases h : s.count - 1 > 0
            · have hi : s.installed = true := by rw [hinst]; simp; omega
              simp [h, hi]
            · simp [h]
          have hc1 : s.count - 1 < 2 ^ 64 := by omega
          have := ih { count := s.count - 1, installed := decide (0 < s.count - 1) }
            hc1 (by simp) (by simpa using hrest)
          simpa [loggerRun, loggerLiveCount, hstep] using this

/-- C9: starting from the initial state (count zero, redirection not
installed), after any balanced sequence of logger constructions and
destructions the count equals the number of live loggers and the debug-print
redirection is installed exactly when that number is positive; moreover each
single step toggles the redirection only on the 0-to-1 transition (install)
and the 1-to-0 transition (clear), leaving it untouched otherwise. -/
theorem C9_logger_refcount_invariant (ops : List LoggerOp)
    (hbal : loggerBalancedFrom 0 ops = true) :
    ((loggerRun { count := 0, installed := false } ops).count = loggerLiveCount 0 ops ∧
      (loggerRun { count := 0, installed := false } ops).installed =
        decide (0 < loggerLiveCount 0 ops)) ∧
    (∀ s : LoggerState, s.count = 0 →
      loggerConstruct s = { count := 1, installed := true }) ∧
    (∀ s : LoggerState, 0 < s.count → s.count + 1 < 2 ^ 64 →
      loggerConstruct s = { count := s.count + 1, installed := s.installed }) ∧
    (∀ s : LoggerState, s.count = 1 →
      loggerDestruct s = { count := 0, installed := false }) ∧
    (∀ s : LoggerState, 1 < s.count → s.count < 2 ^ 64 →
      loggerDestruct s = { count := s.count - 1, installed := s.installed }) := by
  refine ⟨loggerRun_inv ops _ (by simp) (by simp) hbal, ?_, ?_, ?_, ?_⟩
  · intro s hs
    unfold loggerConstruct
    simp [hs]
  · intro s hpos hlt
    unfold loggerConstruct
    have hmod : (s.count + 1) % 2 ^ 64 = s.count + 1 := Nat.mod_eq_of_lt hlt
    simp only [hmod]
    simp [hpos]
  · intro s hs
    unfold loggerDestruct
    have hmod : (s.count + (2 ^ 64 - 1)) % 2 ^ 64 = 0 := by omega
    simp only [hmod]
    simp
  · intro s hgt hlt
    unfold loggerDestruct
    have hmod : (s.count + (2 ^ 64 - 1)) % 2 ^ 64 = s.count - 1 := by omega
    simp only [hmod]
    have h : s.count - 1 > 0 := by omega
    simp [h]

/-- Witness for C9 at the nested sequence construct, construct, destruct,
destruct: the redirection ends uninstalled with no live loggers. -/
theorem C9_logger_refcount_invariant_witness :
    (loggerRun { count := 0, installed := false }
        [LoggerOp.construct, LoggerOp.construct, LoggerOp.destruct,
          LoggerOp.destruct]).count =
      loggerLiveCount 0 [LoggerOp.construct, LoggerOp.construct, LoggerOp.destruct,
          LoggerOp.destruct] ∧
    (loggerRun { count := 0, installed := false }
        [LoggerOp.construct, LoggerOp.construct, LoggerOp.destruct,
          LoggerOp.destruct]).installed =
      decide (0 < loggerLiveCount 0 [LoggerOp.construct, LoggerOp.construct,
          LoggerOp.destruct, LoggerOp.destruct]) :=
  (C9_logger_refcount_invariant
    [LoggerOp.construct, LoggerOp.construct, LoggerOp.destruct, LoggerOp.destruct]
    (by decide)).1

/-! ## Stream parameter description (portaudio.cpp, lines 277-303)

`PaStreamParameters.hostApiSpecificStreamInfo` is a raw pointer in the
source; it is modeled as an `Option` of a record holding the three header
fields (`size`, `hostApiType`, `version`, per `PaUtilHostApiSpecificStreamInfoHeader`)
together with the WASAPI-specific body fields of `PaWasapiStreamInfo` — the
body models the bytes that follow the header in memory, which the code reads
only after checking the header's `hostApiType`.  `PaTime suggestedLatency`
is a double used only for display; it is modeled as an integer-valued time. -/

def paWASAPI : Int := 13

/-- Modelled from the spec: `Find` (FlexASIOUtil/find.h, not included under
src/) supports the diagnostics collaborator's rendering of enum values with
their display names; it returns the display string of the first pair whose
enum value equals the query, if any. -/
def Find (value : Int) (pairs : List (Int × String)) : Option String :=
  (pairs.find? (fun p => p.1 = value)).map (fun p => p.2)

/-- Embedding of `EnumToString` (FlexASIOUtil/string.h, lines 31-37): streams
the raw value, then appends the bracketed name when the value is found in the
enum table. -/
def EnumToString (value : Int) (enumStrings : List (Int × String)) : String :=
  let result := toString value
  match Find value enumStrings with
  | some s => result ++ " [" ++ s ++ "]"
  | none => result

/-- Modelled from the spec: `BitfieldToString` (FlexASIOUtil, its definition
is not included under src/) renders for the diagnostics collaborator a
bitfield value as the raw value plus the display names of the flags set in
it. -/
def BitfieldToString (value : Nat) (flags : List (Nat × String)) : String :=
  toString value ++ " [" ++
    String.join (List.intersperse " "
      ((flags.filter (fun p => value &&& p.1 = p.1)).map (fun p => p.2))) ++ "]"

/-- Embedding of `GetHostApiTypeIdString` (portaudio.cpp, lines 69-86), with
the `PaHostApiTypeId` constants of portaudio.h. -/
def GetHostApiTypeIdString (hostApiTypeId : Int) : String :=
  EnumToString hostApiTypeId [
    (0, "In development"), (1, "DirectSound"), (2, "MME"), (3, "ASIO"),
    (4, "SoundManager"), (5, "CoreAudio"), (7, "OSS"), (8, "ALSA"),
    (9, "AL"), (10, "BeOS"), (11, "WDMKS"), (12, "JACK"),
    (13, "WASAPI"), (14, "AudioScienceHPI")]

/-- Embedding of `GetSampleFormatString` (portaudio.cpp, lines 88-100), with
the `PaSampleFormat` flag constants of portaudio.h. -/
def GetSampleFormatString (sampleFormat : Nat) : String :=
  BitfieldToString sampleFormat [
    (0x00000001, "Float32"), (0x00000002, "Int32"), (0x00000004, "Int24"),
    (0x00000008, "Int16"), (0x00000010, "Int8"), (0x00000020, "UInt8"),
    (0x00010000, "CustomFormat"), (0x80000000, "NonInterleaved")]

/-- Embedding of `GetWasapiFlagsString` (portaudio.cpp, lines 111-119). -/
def GetWasapiFlagsString (wasapiFlags : Nat) : String :=
  BitfieldToString wasapiFlags [
    (1, "Exclusive"), (2, "RedirectHostProcessor"), (4, "UseChannelMask"),
    (8, "Polling"), (16, "ThreadPriority")]

/-- Embedding of `GetWasapiThreadPriorityString` (portaudio.cpp, lines
121-132), with the `PaWasapiThreadPriority` constants of pa_win_wasapi.h. -/
def GetWasapiThreadPriorityString (threadPriority : Int) : String :=
  EnumToString threadPriority [
    (0, "None"), (1, "Audio"), (2, "Capture"), (3, "Distribution"),
    (4, "Games"), (5, "Playback"), (6, "ProAudio"), (7, "WindowManager")]

/-- Embedding of `GetWasapiStreamCategoryString` (portaudio.cpp, lines
134-147), with the `PaWasapiStreamCategory` constants of pa_win_wasapi.h. -/
def GetWasapiStreamCategoryString (streamCategory : Int) : String :=
  EnumToString streamCategory [
    (0, "Other"), (3, "Communications"), (4, "Alerts"), (5, "SoundEffects"),
    (6, "GameEffects"), (8, "GameMedia"), (9, "GameChat"), (10, "Speech"),
    (11, "Movie"), (12, "Media")]

/-- Embedding of `GetWasapiStreamOptionString` (portaudio.cpp, lines
149-155). -/
def GetWasapiStreamOptionString (streamOption : Int) : String :=
  EnumToString streamOption [(0, "None"), (1, "Raw"), (2, "MatchFormat")]

/-- Embedding of `GetWaveFormatChannelMaskString` (portaudio.cpp, lines
215-236), with the `SPEAKER_` mask constants of ksmedia.h. -/
def GetWaveFormatChannelMaskString (channelMask : Nat) : String :=
  BitfieldToString channelMask [
    (0x1, "Front Left"), (0x2, "Front Right"), (0x4, "Front Center"),
    (0x8, "Low Frequency"), (0x10, "Back Left"), (0x20, "Back Right"),
    (0x40, "Front Left of Center"), (0x80, "Front Right of Center"),
    (0x100, "Back Center"), (0x200, "Side Left"), (0x400, "Side Right"),
    (0x800, "Top Center"), (0x1000, "Top Front Left"),
    (0x2000, "Top Front Center"), (0x4000, "Top Front Right"),
    (0x8000, "Top Back Left"), (0x10000, "Top Back Center"),
    (0x20000, "Top Back Right")]

/-- The three fields of `PaUtilHostApiSpecificStreamInfoHeader`. -/
structure HostApiSpecificHeader where
  size : Nat
  hostApiType : Int
  version : Nat
deriving DecidableEq

/-- The WASAPI-specific body fields of `PaWasapiStreamInfo` that follow the
header (host processor callbacks modeled by their pointer values). -/
structure PaWasapiStreamInfoBody where
  flags : Nat
  channelMask : Nat
  hostProcessorOutput : Nat
  hostProcessorInput : Nat
  threadPriority : Int
  streamCategory : Int
  streamOption : Int
deriving DecidableEq

/-- The structure an attached `hostApiSpecificStreamInfo` pointer points at:
the common header followed by (possibly garbage) WASAPI body bytes. -/
structure HostApiSpecificStreamInfo where
  header : HostApiSpecificHeader
  wasapi : PaWasapiStreamInfoBody
deriving DecidableEq

structure PaStreamParameters where
  device : Int
  channelCount : Int
  sampleFormat : Nat
  suggestedLatency : Int
  hostApiSpecificStreamInfo : Option HostApiSpecificStreamInfo
deriving DecidableEq

/-- The part of the description built before the `hostApiSpecificStreamInfo`
null check (portaudio.cpp, lines 280-283). -/
def DescribeStreamParametersBase (parameters : PaStreamParameters) : String :=
  "PortAudio stream parameters for device index " ++ toString parameters.device ++ ", "
    ++ toString parameters.channelCount ++ " channels, sample format "
    ++ GetSampleFormatString parameters.sampleFormat ++ ", suggested latency "
    ++ toString parameters.suggestedLatency ++ "s"

/-- Embedding of `DescribeStreamParameters` (portaudio.cpp, lines 277-303):
after the base description, if the host-API-specific pointer is non-null the
three header fields are rendered, and the WASAPI body is decoded exactly when
the header's `hostApiType` equals `paWASAPI`. -/
def DescribeStreamParameters (parameters : PaStreamParameters) : String :=
  let result := DescribeStreamParametersBase parameters
  match parameters.hostApiSpecificStreamInfo with
  | none => result
  | some info =>
      let result := result ++ ", host API specific: " ++ toString info.header.size
        ++ " bytes structure, type " ++ GetHostApiTypeIdString info.header.hostApiType
        ++ ", version " ++ toString info.header.version
      if info.header.hostApiType = paWASAPI then
        result ++ ", WASAPI specific: flags " ++ GetWasapiFlagsString info.wasapi.flags
          ++ ", channel mask " ++ GetWaveFormatChannelMaskString info.wasapi.channelMask
          ++ ", host processor output " ++ toString info.wasapi.hostProcessorOutput
          ++ ", host processor input " ++ toString info.wasapi.hostProcessorInput
          ++ ", thread priority " ++ GetWasapiThreadPriorityString info.wasapi.threadPriority
          ++ ", stream category " ++ GetWasapiStreamCategoryString info.wasapi.streamCategory
          ++ ", stream option " ++ GetWasapiStreamOptionString info.wasapi.streamOption
      else result

/-- A concrete WASAPI-typed parameter block used to exhibit that the WASAPI
body is decoded: all fields zero except the WASAPI flags. -/
def wasapiParamsWithFlags (flags : Nat) : PaStreamParameters :=
  ⟨0, 0, 0, 0, some ⟨⟨0, 13, 0⟩, ⟨flags, 0, 0, 0, 0, 0, 0⟩⟩⟩

/-- A concrete parameter block with a null host-API-specific pointer. -/
def paramsNoHostApiInfo : PaStreamParameters := ⟨0, 2, 1, 0, none⟩

/-- C7: the host-API-specific block is treated as opaque and optional: with a
null pointer the description is exactly the base description (no host-API
section); with a non-null pointer whose header type is not WASAPI the
description depends only on the header, not on the body bytes; with equal
WASAPI-typed blocks the description is determined; and the WASAPI body is
decoded when the type is WASAPI (two blocks equal except for the body can
yield different descriptions).  The embedding is pure, so the structure is
never modified. -/
theorem C7_host_api_specific_header_only (p q : PaStreamParameters)
    (hbase : DescribeStreamParametersBase p = DescribeStreamParametersBase q) :
    (p.hostApiSpecificStreamInfo = none →
      DescribeStreamParameters p = DescribeStreamParametersBase p) ∧
    (∀ hp hq, p.hostApiSpecificStreamInfo = some hp →
      q.hostApiSpecificStreamInfo = some hq →
      hp.header = hq.header → hp.header.hostApiType ≠ paWASAPI →
      DescribeStreamParameters p = DescribeStreamParameters q) ∧
    (∀ hp hq, p.hostApiSpecificStreamInfo = some hp →
      q.hostApiSpecificStreamInfo = some hq →
      hp.header = hq.header → hp.wasapi = hq.wasapi →
      DescribeStreamParameters p = DescribeStreamParameters q) ∧
    (∃ r r' : PaStreamParameters,
      r.hostApiSpecificStreamInfo.isSome ∧ r'.hostApiSpecificStreamInfo.isSome ∧
      (∀ hr hr', r.hostApiSpecificStreamInfo = some hr →
        r'.hostApiSpecificStreamInfo = some hr' →
        hr.header = hr'.header ∧ hr.header.hostApiType = paWASAPI) ∧
      DescribeStreamParametersBase r = DescribeStreamParametersBase r' ∧
      DescribeStreamParameters r ≠ DescribeStreamParameters r') := by
  refine ⟨?_, ?_, ?_, ?_⟩
  · intro hnone
    unfold DescribeStreamParameters
    rw [hnone]
  · intro hp hq hpe hqe hhead htype
    obtain ⟨hph, hpw⟩ := hp
    obtain ⟨hqh, hqw⟩ := hq
    replace hhead : hph = hqh := hhead
    subst hhead
    replace htype : hph.hostApiType ≠ paWASAPI := htype
    simp only [DescribeStreamParameters, hpe, hqe, hbase, if_neg htype]
  · intro hp hq hpe hqe hhead hbody
    obtain ⟨hph, hpw⟩ := hp
    obtain ⟨hqh, hqw⟩ := hq
    replace hhead : hph = hqh := hhead
    replace hbody : hpw = hqw := hbody
    subst hhead
    subst hbody
    simp only [DescribeStreamParameters, hpe, hqe, hbase]
  · refine ⟨wasapiParamsWithFlags 0, wasapiParamsWithFlags 1, ?_, ?_, ?_, ?_, ?_⟩
    · rfl
    · rfl
    · intro hr hr' h1 h2
      refine ⟨?_, ?_⟩
      · cases h1; cases h2; rfl
      · cases h1; rfl
    · rfl
    · decide

/-- Witness for C7 at a parameter block with a null host-API-specific
pointer. -/
theorem C7_host_api_specific_header_only_witness :
    DescribeStreamParameters paramsNoHostApiInfo =
      DescribeStreamParametersBase paramsNoHostApiInfo :=
  (C7_host_api_specific_header_only paramsNoHostApiInfo paramsNoHostApiInfo rfl).1 rfl

/-! ## The exerciser (FlexASIOTest/test.cpp)

The ASIO driver under test is external mutable state reached through the
`ASIO...` host-library entry points.  It is modeled as a state machine over
an arbitrary state type `σ`: each entry point is a function from the current
state to the values it returns (its `ASIOError` and whatever it writes
through out-parameters) and the next state, so every theorem below holds for
every possible driver behaviour.  `ASIOSampleRate` is a C double, but the
exerciser only uses integral rates and only tests them for equality, so
rates are modeled as `Int`.  Each wrapper also yields the list of driver
calls it made, modelling the order in which `Run` drives the interface. -/

structure BufferSize where
  min : Int
  max : Int
  preferred : Int
  granularity : Int
deriving DecidableEq

structure ASIODriverInfo where
  asioVersion : Int
  driverVersion : Int
  name : String
  errorMessage : String
deriving DecidableEq

structure ASIOChannelInfo where
  isActive : Bool
  channelGroup : Int
  type : Int
  name : String
deriving DecidableEq

structure ASIOBufferInfo where
  isInput : Bool
  channelNum : Int
deriving DecidableEq

/-- The no-op callback set `Run` installs (test.cpp, lines 194-198). -/
structure ASIOCallbacks where
  bufferSwitch : Int → Bool → Unit
  sampleRateDidChange : Int → Unit
  asioMessage : Int → Int → Int
  bufferSwitchTimeInfo : Int → Bool → Option Int

def noOpCallbacks : ASIOCallbacks where
  bufferSwitch := fun _ _ => ()
  sampleRateDidChange := fun _ => ()
  asioMessage := fun _ _ => 0
  bufferSwitchTimeInfo := fun _ _ => none

/-- One driver call made by the exerciser, with its arguments. -/
inductive ASIOCall where
  | init
  | getChannels
  | getBufferSize
  | getSampleRate
  | canSampleRate (rate : Int)
  | setSampleRate (rate : Int)
  | outputReady
  | getChannelInfo (channel : Int) (isInput : Bool)
  | createBuffers (infos : List ASIOBufferInfo) (bufferSize : Int)
      (callbacks : ASIOCallbacks)

/-- An ASIO driver as observed through the host-library entry points: each
operation returns its `ASIOError` plus the out-parameter values it wrote,
and the successor state. -/
structure ASIODriver (σ : Type) where
  init : σ → (Int × ASIODriverInfo) × σ
  getChannels : σ → (Int × Int × Int) × σ
  getBufferSize : σ → (Int × BufferSize) × σ
  getSampleRate : σ → (Int × Int) × σ
  canSampleRate : Int → σ → Int × σ
  setSampleRate : Int → σ → Int × σ
  outputReady : σ → Int × σ
  getChannelInfo : Int → Bool → σ → (Int × ASIOChannelInfo) × σ
  createBuffers : List ASIOBufferInfo → Int → ASIOCallbacks → σ → Int × σ

variable {σ : Type}

/-- Embedding of `Init` (test.cpp, lines 63-71): calls `ASIOInit` and yields
the driver info on `ASE_OK`, nothing otherwise. -/
def testInit (d : ASIODriver σ) (s : σ) :
    Option ASIODriverInfo × σ × List ASIOCall :=
  let r := d.init s
  (if r.1.1 = ASE_OK then some r.1.2 else none, r.2, [ASIOCall.init])

/-- Embedding of `GetChannels` (test.cpp, lines 73-80): yields the reported
channel counts on `ASE_OK` and the pair (0, 0) otherwise. -/
def testGetChannels (d : ASIODriver σ) (s : σ) :
    (Int × Int) × σ × List ASIOCall :=
  let r := d.getChannels s
  (if r.1.1 = ASE_OK then (r.1.2.1, r.1.2.2) else (0, 0), r.2, [ASIOCall.getChannels])

/-- Embedding of `GetBufferSize` (test.cpp, lines 89-96). -/
def testGetBufferSize (d : ASIODriver σ) (s : σ) :
    Option BufferSize × σ × List ASIOCall :=
  let r := d.getBufferSize s
  (if r.1.1 = ASE_OK then some r.1.2 else none, r.2, [ASIOCall.getBufferSize])

/-- Embedding of `GetSampleRate` (test.cpp, lines 98-105). -/
def testGetSampleRate (d : ASIODriver σ) (s : σ) :
    Option Int × σ × List ASIOCall :=
  let r := d.getSampleRate s
  (if r.1.1 = ASE_OK then some r.1.2 else none, r.2, [ASIOCall.getSampleRate])

/-- Embedding of `CanSampleRate` (test.cpp, lines 107-110). -/
def testCanSampleRate (d : ASIODriver σ) (rate : Int) (s : σ) :
    Bool × σ × List ASIOCall :=
  let r := d.canSampleRate rate s
  (decide (r.1 = ASE_OK), r.2, [ASIOCall.canSampleRate rate])

/-- Embedding of `SetSampleRate` (test.cpp, lines 112-115). -/
def testSetSampleRate (d : ASIODriver σ) (rate : Int) (s : σ) :
    Bool × σ × List ASIOCall :=
  let r := d.setSampleRate rate s
  (decide (r.1 = ASE_OK), r.2, [ASIOCall.setSampleRate rate])

/-- Embedding of `OutputReady` (test.cpp, lines 117-120). -/
def testOutputReady (d : ASIODriver σ) (s : σ) : Bool × σ × List ASIOCall :=
  let r := d.outputReady s
  (decide (r.1 = ASE_OK), r.2, [ASIOCall.outputReady])

/-- Embedding of `GetChannelInfo` (test.cpp, lines 122-130). -/
def testGetChannelInfo (d : ASIODriver σ) (channel : Int) (isInput : Bool)
    (s : σ) : Option ASIOChannelInfo × σ × List ASIOCall :=
  let r := d.getChannelInfo channel isInput s
  (if r.1.1 = ASE_OK then some r.1.2 else none, r.2,
    [ASIOCall.getChannelInfo channel isInput])

/-- Embedding of `GetAllChannelInfo` (test.cpp, lines 132-135): one
`GetChannelInfo` per input channel in increasing order, then one per output
channel in increasing order; results are discarded. -/
def testGetAllChannelInfo (d : ASIODriver σ) (ioChannelCounts : Int × Int)
    (s : σ) : σ × List ASIOCall :=
  let inputPass := (List.range ioChannelCounts.1.toNat).foldl
    (fun (acc : σ × List ASIOCall) (i : Nat) =>
      let r := testGetChannelInfo d (i : Int) true acc.1
      (r.2.1, acc.2 ++ r.2.2)) (s, [])
  (List.range ioChannelCounts.2.toNat).foldl
    (fun (acc : σ × List ASIOCall) (i : Nat) =>
      let r := testGetChannelInfo d (i : Int) false acc.1
      (r.2.1, acc.2 ++ r.2.2)) inputPass

/-- The buffer-info list built by `CreateBuffers` (test.cpp, lines 139-149):
one entry per input channel 0 .. inputCount-1 with `isInput = true`, then one
per output channel 0 .. outputCount-1 with `isInput = false`.  A C++
`for (long c = 0; c < n; ++c)` loop runs `n.toNat` times. -/
def buildBufferInfos (numInput numOutput : Int) : List ASIOBufferInfo :=
  ((List.range numInput.toNat).map
      (fun (i : Nat) => ASIOBufferInfo.mk true (i : Int))) ++
    ((List.range numOutput.toNat).map
      (fun (i : Nat) => ASIOBufferInfo.mk false (i : Int)))

/-- Embedding of `CreateBuffers` (test.cpp, lines 138-159): builds the
buffer-info list, calls `ASIOCreateBuffers` with it and the callbacks, and
yields the list on `ASE_OK`, the empty list otherwise. -/
def testCreateBuffers (d : ASIODriver σ) (ioChannelCounts : Int × Int)
    (bufferSize : Int) (callbacks : ASIOCallbacks) (s : σ) :
    List ASIOBufferInfo × σ × List ASIOCall :=
  let bufferInfos := buildBufferInfos ioChannelCounts.1 ioChannelCounts.2
  let r := d.createBuffers bufferInfos bufferSize callbacks s
  (if r.1 = ASE_OK then bufferInfos else [], r.2,
    [ASIOCall.createBuffers bufferInfos bufferSize callbacks])

/-- The three-step rate check of `Run`'s negotiation loop (test.cpp, line
181): `CanSampleRate(r) && SetSampleRate(r) && GetSampleRate() == r`, with
C++ short-circuit evaluation. -/
def testRateCheck (d : ASIODriver σ) (rate : Int) (s : σ) :
    Bool × σ × List ASIOCall :=
  let c := testCanSampleRate d rate s
  if c.1 = false then (false, c.2.1, c.2.2)
  else
    let st := testSetSampleRate d rate c.2.1
    if st.1 = false then (false, st.2.1, c.2.2 ++ st.2.2)
    else
      let g := testGetSampleRate d st.2.1
      (decide (g.1 = some rate), g.2.1, c.2.2 ++ st.2.2 ++ g.2.2)

/-- The rate-negotiation loop of `Run` (test.cpp, lines 180-182): checks each
rate in order; returns failure only when the check fails for rate 48000. -/
def testRateLoop (d : ASIODriver σ) : List Int → σ → Bool × σ × List ASIOCall
  | [], s => (true, s, [])
  | r :: rest, s =>
      let c := testRateCheck d r s
      if c.1 = false ∧ r = 48000 then (false, c.2.1, c.2.2)
      else
        let next := testRateLoop d rest c.2.1
        (next.1, next.2.1, c.2.2 ++ next.2.2)

/-- Embedding of `Run` (test.cpp, lines 161-210). -/
def testRun (d : ASIODriver σ) (s0 : σ) : Bool × σ × List ASIOCall :=
  let r1 := testInit d s0
  if r1.1.isNone then (false, r1.2.1, r1.2.2) else
  let r2 := testGetChannels d r1.2.1
  if r2.1.1 = 0 ∧ r2.1.2 = 0 then (false, r2.2.1, r1.2.2 ++ r2.2.2) else
  let r3 := testGetBufferSize d r2.2.1
  if r3.1.isNone then (false, r3.2.1, r1.2.2 ++ r2.2.2 ++ r3.2.2) else
  let r4 := testGetSampleRate d r3.2.1
  let r5 := testRateLoop d [44100, 96000, 192000, 48000] r4.2.1
  if r5.1 = false then
    (false, r5.2.1, r1.2.2 ++ r2.2.2 ++ r3.2.2 ++ r4.2.2 ++ r5.2.2) else
  let r6 := testOutputReady d r5.2.1
  let r7 := testGetAllChannelInfo d r2.1 r6.2.1
  let r8 := testCreateBuffers d r2.1 ((r3.1.getD (BufferSize.mk 0 0 0 0)).preferred)
    noOpCallbacks r7.1
  if r8.1.length = 0 then
    (false, r8.2.1,
      r1.2.2 ++ r2.2.2 ++ r3.2.2 ++ r4.2.2 ++ r5.2.2 ++ r6.2.2 ++ r7.2 ++ r8.2.2) else
  let r9 := testGetSampleRate d r8.2.1
  let r10 := testGetAllChannelInfo d r2.1 r9.2.1
  (true, r10.1,
    r1.2.2 ++ r2.2.2 ++ r3.2.2 ++ r4.2.2 ++ r5.2.2 ++ r6.2.2 ++ r7.2 ++ r8.2.2
      ++ r9.2.2 ++ r10.2)

lemma testRateLoop_cons_ne (d : ASIODriver σ) (r : Int) (rest : List Int)
    (s : σ) (h : r ≠ 48000) :
    testRateLoop d (r :: rest) s =
      ((testRateLoop d rest (testRateCheck d r s).2.1).1,
        (testRateLoop d rest (testRateCheck d r s).2.1).2.1,
        (testRateCheck d r s).2.2 ++
          (testRateLoop d rest (testRateCheck d r s).2.1).2.2) := by
  simp [testRateLoop, h]

lemma testRateLoop_48000 (d : ASIODriver σ) (s : σ) :
    testRateLoop d [48000] s =
      ((testRateCheck d 48000 s).1, (testRateCheck d 48000 s).2.1,
        (testRateCheck d 48000 s).2.2) := by
  by_cases h : (testRateCheck d 48000 s).1 = false
  · simp [testRateLoop, h]
  · have h' : (testRateCheck d 48000 s).1 = true := by
      revert h; cases (testRateCheck d 48000 s).1 <;> simp
    simp [testRateLoop, h']

/-- C3: in the negotiation loop over 44100, 96000, 192000, 48000, each rate
is checked by `canSampleRate`, then `setSampleRate`, then
`getSampleRate() == r` (with short-circuiting), every rate is reached (the
loop's calls are the four checks' calls in order), and the loop result is
exactly the result of the check at 48000 — failures at the three earlier
rates never abort the run. -/
theorem C3_rate_negotiation_48000_mandatory (d : ASIODriver σ) (s : σ) :
    (∀ (r : Int) (s' : σ),
      (testRateCheck d r s').1 = true ↔
        ((d.canSampleRate r s').1 = ASE_OK ∧
          (d.setSampleRate r (d.canSampleRate r s').2).1 = ASE_OK ∧
          (d.getSampleRate (d.setSampleRate r (d.canSampleRate r s').2).2).1.1
              = ASE_OK ∧
          (d.getSampleRate (d.setSampleRate r (d.canSampleRate r s').2).2).1.2
              = r)) ∧
    (let c1 := testRateCheck d 44100 s
     let c2 := testRateCheck d 96000 c1.2.1
     let c3 := testRateCheck d 192000 c2.2.1
     let c4 := testRateCheck d 48000 c3.2.1
     (testRateLoop d [44100, 96000, 192000, 48000] s).1 = c4.1 ∧
       (testRateLoop d [44100, 96000, 192000, 48000] s).2.2 =
         c1.2.2 ++ c2.2.2 ++ c3.2.2 ++ c4.2.2) := by
  constructor
  · intro r s'
    unfold testRateCheck testCanSampleRate testSetSampleRate testGetSampleRate
    by_cases h1 : (d.canSampleRate r s').1 = ASE_OK
    · by_cases h2 : (d.setSampleRate r (d.canSampleRate r s').2).1 = ASE_OK
      · by_cases h3 :
            (d.getSampleRate (d.setSampleRate r (d.canSampleRate r s').2).2).1.1
              = ASE_OK
        · simp [h1, h2, h3]
        · simp [h1, h2, h3]
      · simp [h1, h2]
    · simp [h1]
  · rw [testRateLoop_cons_ne d 44100 _ s (by decide),
      testRateLoop_cons_ne d 96000 _ _ (by decide),
      testRateLoop_cons_ne d 192000 _ _ (by decide),
      testRateLoop_48000]
    exact ⟨rfl, by simp [List.append_assoc]⟩

/-- C6: for nonnegative channel counts, the buffer-creation request built by
the exerciser has exactly inputCount + outputCount entries, holds the input
channels 0 .. inputCount-1 in increasing order first and then the output
channels 0 .. outputCount-1 in increasing order, contains no duplicate
(direction, index) pair, every index is valid for its direction, and is
exactly the list `CreateBuffers` passes to `ASIOCreateBuffers`. -/
theorem C6_buffer_request_valid_subset (nIn nOut : Int)
    (hIn : 0 ≤ nIn) (hOut : 0 ≤ nOut) :
    ((buildBufferInfos nIn nOut).length : Int) = nIn + nOut ∧
    (∀ i : Nat, i < nIn.toNat →
      (buildBufferInfos nIn nOut)[i]? = some (ASIOBufferInfo.mk true (i : Int))) ∧
    (∀ i : Nat, i < nOut.toNat →
      (buildBufferInfos nIn nOut)[nIn.toNat + i]? =
        some (ASIOBufferInfo.mk false (i : Int))) ∧
    (buildBufferInfos nIn nOut).Nodup ∧
    (∀ b ∈ buildBufferInfos nIn nOut, 0 ≤ b.channelNum ∧
      (b.isInput = true → b.channelNum < nIn) ∧
      (b.isInput = false → b.channelNum < nOut)) ∧
    (∀ (σ' : Type) (d : ASIODriver σ') (s : σ') (bufferSize : Int)
      (callbacks : ASIOCallbacks),
      (testCreateBuffers d (nIn, nOut) bufferSize callbacks s).2.2 =
        [ASIOCall.createBuffers (buildBufferInfos nIn nOut) bufferSize callbacks]) := by
  refine ⟨?_, ?_, ?_, ?_, ?_, ?_⟩
  · simp only [buildBufferInfos, List.length_append, List.length_map,
      List.length_range]
    omega
  · intro i hi
    simp only [buildBufferInfos]
    rw [List.getElem?_append_left (by simpa using hi)]
    simp [List.getElem?_map, List.getElem?_range, hi]
  · intro i hi
    simp only [buildBufferInfos]
    rw [List.getElem?_append_right (by simp)]
    simp [List.getElem?_map, List.getElem?_range, hi]
  · simp only [buildBufferInfos]
    refine List.Nodup.append ?_ ?_ ?_
    · exact (List.nodup_range _).map (fun a b hab => by
        simpa using congrArg ASIOBufferInfo.channelNum hab)
    · exact (List.nodup_range _).map (fun a b hab => by
        simpa using congrArg ASIOBufferInfo.channelNum hab)
    · intro b hb hb'
      simp only [List.mem_map, List.mem_range] at hb hb'
      obtain ⟨i, _, hib⟩ := hb
      obtain ⟨j, _, hjb⟩ := hb'
      rw [← hib] at hjb
      simpa using congrArg ASIOBufferInfo.isInput hjb
  · intro b hb
    simp only [buildBufferInfos, List.mem_append, List.mem_map,
      List.mem_range] at hb
    rcases hb with ⟨i, hi, rfl⟩ | ⟨i, hi, rfl⟩
    · refine ⟨?_, fun _ => ?_, fun h => by simp at h⟩
      · show (0 : Int) ≤ (i : Int)
        exact Int.natCast_nonneg i
      · show (i : Int) < nIn
        omega
    · refine ⟨?_, fun h => by simp at h, fun _ => ?_⟩
      · show (0 : Int) ≤ (i : Int)
        exact Int.natCast_nonneg i
      · show (i : Int) < nOut
        omega
  · intro σ' d s bufferSize callbacks
    rfl

/-- Witness for C6 at channel counts (2, 3). -/
theorem C6_buffer_request_valid_subset_witness :
    ((buildBufferInfos 2 3).length : Int) = 2 + 3 :=
  (C6_buffer_request_valid_subset 2 3 (by decide) (by decide)).1

lemma channelInfoFold_trace (d : ASIODriver σ) (isInput : Bool) (l : List Nat)
    (p : σ × List ASIOCall) :
    (l.foldl (fun (acc : σ × List ASIOCall) (i : Nat) =>
      let r := testGetChannelInfo d (i : Int) isInput acc.1
      (r.2.1, acc.2 ++ r.2.2)) p).2 =
      p.2 ++ l.map (fun (i : Nat) => ASIOCall.getChannelInfo (i : Int) isInput) := by
  induction l generalizing p with
  | nil => simp
  | cons x xs ih =>
      simp only [List.foldl_cons, List.map_cons]
      rw [ih]
      simp [testGetChannelInfo, List.append_assoc]

/-- The calls made by `GetAllChannelInfo`: every input channel in increasing
order, then every output channel in increasing order. -/
lemma testGetAllChannelInfo_trace (d : ASIODriver σ) (c : Int × Int) (s : σ) :
    (testGetAllChannelInfo d c s).2 =
      (List.range c.1.toNat).map
          (fun (i : Nat) => ASIOCall.getChannelInfo (i : Int) true) ++
        (List.range c.2.toNat).map
          (fun (i : Nat) => ASIOCall.getChannelInfo (i : Int) false) := by
  unfold testGetAllChannelInfo
  rw [channelInfoFold_trace, channelInfoFold_trace]
  simp

/-- A concrete well-behaved driver (2 input and 2 output channels, preferred
buffer size 512, sample rate pinned at 48000, every call succeeding),
exercising the all-success path of `Run`. -/
def dGood : ASIODriver Unit where
  init := fun s => ((ASE_OK, ASIODriverInfo.mk 2 2 "FlexASIO" ""), s)
  getChannels := fun s => ((ASE_OK, 2, 2), s)
  getBufferSize := fun s => ((ASE_OK, BufferSize.mk 64 8192 512 64), s)
  getSampleRate := fun s => ((ASE_OK, 48000), s)
  canSampleRate := fun _ s => (ASE_OK, s)
  setSampleRate := fun _ s => (ASE_OK, s)
  outputReady := fun s => (ASE_OK, s)
  getChannelInfo := fun _ _ s => ((ASE_OK, ASIOChannelInfo.mk true 0 0 "ch"), s)
  createBuffers := fun _ _ _ s => (ASE_OK, s)

/-- The driver `dGood`, except that `ASIOInit` returns the distinct success
code `ASE_SUCCESS` instead of `ASE_OK`. -/
def dInitSuccessCode : ASIODriver Unit :=
  { dGood with init := fun s => ((ASE_SUCCESS, ASIODriverInfo.mk 2 2 "FlexASIO" ""), s) }

/-- C8: every exerciser step decides success by comparing the returned code
to `ASE_OK` and nothing else: for every driver behaviour, each wrapper
reports success exactly when the driver returned `ASE_OK`; in particular
`ASE_SUCCESS` — a different value, recognised as a distinct success code by
the error renderer — is treated as failure, and an `ASIOInit` returning
`ASE_SUCCESS` makes the whole run fail. -/
theorem C8_success_is_ASE_OK_only (d : ASIODriver σ) (s : σ) :
    ((testInit d s).1.isSome = true ↔ (d.init s).1.1 = ASE_OK) ∧
    ((testGetChannels d s).1 =
      if (d.getChannels s).1.1 = ASE_OK
      then ((d.getChannels s).1.2.1, (d.getChannels s).1.2.2) else (0, 0)) ∧
    ((testGetBufferSize d s).1.isSome = true ↔ (d.getBufferSize s).1.1 = ASE_OK) ∧
    ((testGetSampleRate d s).1.isSome = true ↔ (d.getSampleRate s).1.1 = ASE_OK) ∧
    (∀ r : Int, (testCanSampleRate d r s).1 = true ↔
      (d.canSampleRate r s).1 = ASE_OK) ∧
    (∀ r : Int, (testSetSampleRate d r s).1 = true ↔
      (d.setSampleRate r s).1 = ASE_OK) ∧
    ((testOutputReady d s).1 = true ↔ (d.outputReady s).1 = ASE_OK) ∧
    (∀ (ch : Int) (isInput : Bool),
      (testGetChannelInfo d ch isInput s).1.isSome = true ↔
        (d.getChannelInfo ch isInput s).1.1 = ASE_OK) ∧
    (∀ (counts : Int × Int) (bufferSize : Int) (callbacks : ASIOCallbacks),
      (testCreateBuffers d counts bufferSize callbacks s).1 ≠ [] ↔
        ((d.createBuffers (buildBufferInfos counts.1 counts.2) bufferSize
            callbacks s).1 = ASE_OK ∧
          buildBufferInfos counts.1 counts.2 ≠ [])) ∧
    (ASE_SUCCESS ≠ ASE_OK ∧ GetASIOErrorString ASE_SUCCESS = "ASE_SUCCESS" ∧
      (testRun dInitSuccessCode ()).1 = false) := by
  refine ⟨?_, ?_, ?_, ?_, ?_, ?_, ?_, ?_, ?_, by decide, by decide, ?_⟩
  · unfold testInit
    by_cases h : (d.init s).1.1 = ASE_OK <;> simp [h]
  · unfold testGetChannels
    by_cases h : (d.getChannels s).1.1 = ASE_OK <;> simp [h]
  · unfold testGetBufferSize
    by_cases h : (d.getBufferSize s).1.1 = ASE_OK <;> simp [h]
  · unfold testGetSampleRate
    by_cases h : (d.getSampleRate s).1.1 = ASE_OK <;> simp [h]
  · intro r
    unfold testCanSampleRate
    by_cases h : (d.canSampleRate r s).1 = ASE_OK <;> simp [h]
  · intro r
    unfold testSetSampleRate
    by_cases h : (d.setSampleRate r s).1 = ASE_OK <;> simp [h]
  · unfold testOutputReady
    by_cases h : (d.outputReady s).1 = ASE_OK <;> simp [h]
  · intro ch isInput
    unfold testGetChannelInfo
    by_cases h : (d.getChannelInfo ch isInput s).1.1 = ASE_OK <;> simp [h]
  · intro counts bufferSize callbacks
    unfold testCreateBuffers
    by_cases h : (d.createBuffers (buildBufferInfos counts.1 counts.2)
        bufferSize callbacks s).1 = ASE_OK <;> simp [h]
  · rfl

/-- C2: `Run` drives the control-path sequence in the spec's order — init,
channel counts, buffer size, sample-rate query then negotiation, output
ready, channel info for every input and output channel, buffer creation with
the no-op callback set (followed by the trailing diagnostic re-queries) —
and it returns true exactly when initialization succeeds, the channel query
reports a nonzero channel pair, the buffer-size query succeeds, the
mandatory 48000 negotiation succeeds, and buffer creation yields a nonempty
buffer list.  The failure conditions are observed as the code observes them:
a failed channel query yields the pair (0, 0) and a failed buffer creation
yields the empty list. -/
theorem C2_run_control_sequence (d : ASIODriver σ) (s0 : σ) :
    let r1 := testInit d s0
    let r2 := testGetChannels d r1.2.1
    let r3 := testGetBufferSize d r2.2.1
    let r4 := testGetSampleRate d r3.2.1
    let r5 := testRateLoop d [44100, 96000, 192000, 48000] r4.2.1
    let r6 := testOutputReady d r5.2.1
    let r7 := testGetAllChannelInfo d r2.1 r6.2.1
    let r8 := testCreateBuffers d r2.1
      ((r3.1.getD (BufferSize.mk 0 0 0 0)).preferred) noOpCallbacks r7.1
    ((testRun d s0).1 = true ↔
      (r1.1.isSome = true ∧ ¬(r2.1.1 = 0 ∧ r2.1.2 = 0) ∧ r3.1.isSome = true ∧
        r5.1 = true ∧ r8.1.length ≠ 0)) ∧
    ((testRun d s0).1 = true →
      (testRun d s0).2.2 =
        [ASIOCall.init] ++ [ASIOCall.getChannels] ++ [ASIOCall.getBufferSize] ++
          [ASIOCall.getSampleRate] ++ r5.2.2 ++ [ASIOCall.outputReady] ++
          ((List.range r2.1.1.toNat).map
              (fun (i : Nat) => ASIOCall.getChannelInfo (i : Int) true) ++
            (List.range r2.1.2.toNat).map
              (fun (i : Nat) => ASIOCall.getChannelInfo (i : Int) false)) ++
          [ASIOCall.createBuffers (buildBufferInfos r2.1.1 r2.1.2)
            ((r3.1.getD (BufferSize.mk 0 0 0 0)).preferred) noOpCallbacks] ++
          [ASIOCall.getSampleRate] ++
          ((List.range r2.1.1.toNat).map
              (fun (i : Nat) => ASIOCall.getChannelInfo (i : Int) true) ++
            (List.range r2.1.2.toNat).map
              (fun (i : Nat) => ASIOCall.getChannelInfo (i : Int) false))) := by
  simp only [testRun]
  split_ifs with h1 h2 h3 h4 h5
  · simp_all [Option.isSome_iff_ne_none, Option.isNone_iff_eq_none]
  · simp_all
  · simp_all [Option.isSome_iff_ne_none, Option.isNone_iff_eq_none]
  · simp_all
  · simp_all
  · constructor
    · constructor
      · intro _
        refine ⟨?_, h2, ?_, ?_, h5⟩
        · simp only [Bool.not_eq_true, Option.isNone_eq_false_iff] at h1
          exact h1
        · simp only [Bool.not_eq_true, Option.isNone_eq_false_iff] at h3
          exact h3
        · simp only [Bool.not_eq_false] at h4
          exact h4
      · intro _
        rfl
    · intro _
      simp only [testInit, testGetChannels, testGetBufferSize, testGetSampleRate,
        testOutputReady, testCreateBuffers, testGetAllChannelInfo_trace]

/-- Witness for C2: running the exerciser against the concrete driver
`dGood` passes and makes exactly the spec's call sequence. -/
theorem C2_run_control_sequence_witness :
    (testRun dGood ()).1 = true ∧
    (testRun dGood ()).2.2 =
      [ASIOCall.init, ASIOCall.getChannels, ASIOCall.getBufferSize,
        ASIOCall.getSampleRate,
        ASIOCall.canSampleRate 44100, ASIOCall.setSampleRate 44100,
        ASIOCall.getSampleRate,
        ASIOCall.canSampleRate 96000, ASIOCall.setSampleRate 96000,
        ASIOCall.getSampleRate,
        ASIOCall.canSampleRate 192000, ASIOCall.setSampleRate 192000,
        ASIOCall.getSampleRate,
        ASIOCall.canSampleRate 48000, ASIOCall.setSampleRate 48000,
        ASIOCall.getSampleRate,
        ASIOCall.outputReady,
        ASIOCall.getChannelInfo 0 true, ASIOCall.getChannelInfo 1 true,
        ASIOCall.getChannelInfo 0 false, ASIOCall.getChannelInfo 1 false,
        ASIOCall.createBuffers (buildBufferInfos 2 2) 512 noOpCallbacks,
        ASIOCall.getSampleRate,
        ASIOCall.getChannelInfo 0 true, ASIOCall.getChannelInfo 1 true,
        ASIOCall.getChannelInfo 0 false, ASIOCall.getChannelInfo 1 false] := by
  refine ⟨rfl, ?_⟩
  have h := (C2_run_control_sequence dGood ()).2 rfl
  exact h.trans rfl

/-- Witness for C3: the three-step check instantiated at rate 48000 on the
concrete driver `dGood`. -/
theorem C3_rate_negotiation_48000_mandatory_witness :
    (testRateCheck dGood 48000 ()).1 = true ↔
      ((dGood.canSampleRate 48000 ()).1 = ASE_OK ∧
        (dGood.setSampleRate 48000 (dGood.canSampleRate 48000 ()).2).1 = ASE_OK ∧
        (dGood.getSampleRate
            (dGood.setSampleRate 48000 (dGood.canSampleRate 48000 ()).2).2).1.1
            = ASE_OK ∧
        (dGood.getSampleRate
            (dGood.setSampleRate 48000 (dGood.canSampleRate 48000 ()).2).2).1.2
            = 48000) :=
  (C3_rate_negotiation_48000_mandatory dGood ()).1 48000 ()

/-- Witness for C4 at a backend call reporting success with stream pointer
5. -/
theorem C4_openstream_no_partial_commit_witness :
    (∃ s, OpenStream (PaOpenStreamResult.mk 0 5) = Except.ok s) ↔
      ((PaOpenStreamResult.mk 0 5).error = paNoError ∧
        (PaOpenStreamResult.mk 0 5).stream ≠ 0) :=
  (C4_openstream_no_partial_commit (PaOpenStreamResult.mk 0 5)).2

/-- Witness for C8: the init step of the concrete driver `dGood`. -/
theorem C8_success_is_ASE_OK_only_witness :
    (testInit dGood ()).1.isSome = true ↔ (dGood.init ()).1.1 = ASE_OK :=
  (C8_success_is_ASE_OK_only dGood ()).1

/-- Witness for C10 at a two-item collection. -/
theorem C10_join_delimiter_placement_witness :
    Join ["a", "b"] ", " = String.join (List.intersperse ", " ["a", "b"]) :=
  (C10_join_delimiter_placement ["a", "b"] ", ").2.1

end FlexASIO
